import Mathlib

/-
Verification development for the dummy-http-client repository
(src/src/index.ts).  The TypeScript pipeline is embedded shallowly:
JavaScript runtime values become the inductive `JsValue`, the promise
chain of `send` becomes explicit `Except` passing, and the
`Promise.race` between the fetch chain and the timeout timer becomes a
comparison of explicit settle times.  External collaborators (the
`fetch` transport and the `qs` query-string codec) are modelled at the
interface the code uses: the transport is an input describing when and
how the network call settles, and `qs.stringify` is given a direct
definition on the flat records the claims exercise.
-/

set_option autoImplicit false

namespace DummyHttp

/-- Runtime JavaScript values as far as this client manipulates them:
the primitives, an opaque `FormData` instance, and an error-like object
carrying `name` and `message` properties (such as a `TypeError` thrown
by the transport). -/
inductive JsValue where
  | nullV
  | undef
  | boolV (b : Bool)
  | num (n : Int)
  | str (s : String)
  | formData
  | exception (name message : String)
  deriving DecidableEq, Repr

/-- JavaScript truthiness on the modelled value universe. -/
def jsTruthy : JsValue → Bool
  | .nullV => false
  | .undef => false
  | .boolV b => b
  | .num n => n != 0
  | .str s => s != ""
  | .formData => true
  | .exception _ _ => true

/-- Reading the `name` property of a value: only the error-like objects
have one; on every other modelled value the lookup yields `undefined`,
rendered here as `none`. -/
def jsNameOf : JsValue → Option String
  | .exception n _ => some n
  | _ => none

/-- A JavaScript object literal used as a string-keyed record, in
insertion order.  Spread composition appends, and a later entry with
the same key overrides an earlier one on lookup. -/
abbrev JsRecord := List (String × JsValue)

/-- Decidable equality of settled promise outcomes. -/
instance instDecEqExcept {ε α : Type} [DecidableEq ε] [DecidableEq α] :
    DecidableEq (Except ε α) := fun a b =>
  match a, b with
  | .ok x, .ok y =>
    if h : x = y then .isTrue (by rw [h])
    else .isFalse (by intro hh; cases hh; exact h rfl)
  | .error x, .error y =>
    if h : x = y then .isTrue (by rw [h])
    else .isFalse (by intro hh; cases hh; exact h rfl)
  | .ok _, .error _ => .isFalse (by intro hh; cases hh)
  | .error _, .ok _ => .isFalse (by intro hh; cases hh)

/-- Characters that the RFC 3986 query-string encoding leaves as-is. -/
def qsUnreserved (c : Char) : Bool :=
  c.isAlphanum || c == '-' || c == '.' || c == '_' || c == '~'

/-- Upper-case hexadecimal digit for a value below 16. -/
def hexDigitChar (n : Nat) : Char :=
  if n < 10 then Char.ofNat (48 + n) else Char.ofNat (55 + n)

/-- Percent-encoding of one code unit as `%HH`. -/
def percentEncodeByte (b : Nat) : List Char :=
  ['%', hexDigitChar (b / 16 % 16), hexDigitChar (b % 16)]

/-- Percent-encoding of a key or value as the `qs` codec performs it
(faithful on the ASCII inputs this development exercises). -/
def qsEncode (s : String) : String :=
  String.mk (s.data.foldr
    (fun c acc => if qsUnreserved c then c :: acc else percentEncodeByte c.toNat ++ acc) [])

/-- Rendering of a primitive parameter value inside a query string,
matching how the `qs` codec prints scalars (`null` prints as empty). -/
def jsQsValueString : JsValue → String
  | .num n => toString n
  | .str s => s
  | .boolV b => if b then "true" else "false"
  | _ => ""

/-- Serialization of a flat record by the `qs` codec: entries whose
value is `undefined` are skipped, the rest become `key=value` joined
with `&`. -/
def qsStringifyRecord (params : JsRecord) : String :=
  String.intercalate "&"
    ((List.filter (fun p => p.2 != JsValue.undef) params).map
      (fun p => qsEncode p.1 ++ "=" ++ qsEncode (jsQsValueString p.2)))

/-- Serialization of a non-record value by the `qs` codec: `qs.stringify`
of a primitive (or of a `FormData`, which exposes no own enumerable
keys) is the empty string. -/
def qsStringifyValue (_ : JsValue) : String := ""

/-- URL builder from the source: `combineQueryStrings` returns the URL
unchanged when the params record has no keys, otherwise appends `?` and
the qs serialization. -/
def combineQueryStrings (url : String) (params : JsRecord) : String :=
  if List.length params = 0 then url
  else url ++ "?" ++ qsStringifyRecord params

/-- Minimal JSON escaping for string payloads. -/
def jsonEscapeChar (c : Char) : List Char :=
  if c == '"' then ['\\', '"']
  else if c == '\\' then ['\\', '\\']
  else if c == '\n' then ['\\', 'n']
  else [c]

/-- Serialization by `JSON.stringify` on the modelled value universe.
In `parseRequestBody` it is only ever applied to truthy values (the
falsy guard returns first); a `FormData` or error object has no
enumerable own properties and prints as an empty object. -/
def jsonStringify : JsValue → String
  | .nullV => "null"
  | .undef => "null"
  | .boolV b => if b then "true" else "false"
  | .num n => toString n
  | .str s => "\"" ++ String.mk (s.data.foldr (fun c acc => jsonEscapeChar c ++ acc) []) ++ "\""
  | .formData => "\x7b\x7d"
  | .exception _ _ => "\x7b\x7d"

/-- Metadata captured from the transport response before its body is
consumed: the `baseResponse` object literal built in `send`. -/
structure BaseResponse where
  headers : JsRecord
  ok : Bool
  redirected : Bool
  status : Int
  type : String
  url : String
  deriving DecidableEq, Repr

/-- Everything thrown or rejected inside `send`: a plain `new Error`
(whose `name` is `Error`), the three tagged envelopes, or a foreign
rejection value coming from the transport or a body-consumption
method. -/
inductive JsErr where
  | plainError (message : String)
  | timeoutEnvelope
  | httpErrorEnvelope (base : BaseResponse) (error : JsValue)
  | networkEnvelope (inner : JsErr)
  | external (v : JsValue)
  deriving DecidableEq, Repr

/-- The `name` property of a thrown value: `Error` for plain errors,
the tag for the envelopes, and whatever `name` a foreign value exposes
(empty when it has none). -/
def errName : JsErr → String
  | .plainError _ => "Error"
  | .timeoutEnvelope => "timeout"
  | .httpErrorEnvelope _ _ => "httpErrorResponse"
  | .networkEnvelope _ => "networkError"
  | .external v => (jsNameOf v).getD ""

/-- Caller-supplied options: every field of the TypeScript interface
`RequestOptions` is optional, and the runtime (duck-typed) values of
the string enums are plain strings. -/
structure RequestOptions where
  headers : Option JsRecord := none
  params : Option JsRecord := none
  observe : Option String := none
  contentType : Option String := none
  responseType : Option String := none
  timeout : Option Nat := none
  deriving DecidableEq, Repr

/-- A complete options value, as produced by spreading the defaults
under the caller's fields. -/
structure MergedOptions where
  headers : JsRecord
  params : JsRecord
  observe : String
  contentType : String
  responseType : String
  timeout : Nat
  deriving DecidableEq, Repr

/-- The frozen `defaultOptions` object from the source. -/
def defaultOptions : MergedOptions :=
  { headers := []
    params := []
    observe := "body"
    contentType := "json"
    responseType := "json"
    timeout := 30000 }

/-- Shallow spread merge performed by every client method: each field
the caller supplied overrides the default wholesale, each omitted field
keeps its default. -/
def mergeOptions (o : RequestOptions) : MergedOptions :=
  { headers := o.headers.getD defaultOptions.headers
    params := o.params.getD defaultOptions.params
    observe := o.observe.getD defaultOptions.observe
    contentType := o.contentType.getD defaultOptions.contentType
    responseType := o.responseType.getD defaultOptions.responseType
    timeout := o.timeout.getD defaultOptions.timeout }

/-- Body encoder `parseRequestBody` from the source.  A falsy body
yields `null` before the content type is even inspected.  In the
`text` branch, `<string>body` is only a type assertion and `|| ''` is
applied to a value the falsy guard has already proved truthy, so the
payload passes through unchanged.  A synchronous `throw` is an
`Except.error`. -/
def parseRequestBody (contentType : String) (body : JsValue) :
    Except JsErr (Option JsValue) :=
  if !jsTruthy body then .ok none
  else if contentType == "text" then .ok (some body)
  else if contentType == "json" then .ok (some (.str (jsonStringify body)))
  else if contentType == "multipart" then
    match body with
    | .formData => .ok (some .formData)
    | _ => .error (.plainError "require a FormData instance when content type is multipart")
  else if contentType == "urlencoded" then .ok (some (.str (qsStringifyValue body)))
  else .error (.plainError ("unknown contentType: " ++ contentType))

/-- Header composer `mergeHeaders` from the source: a mutable local
initialized to `plain/text` and reassigned by three `if`s collapses to
this conditional chain; the spread places the `Content-Type` entry
last, so it overrides any caller entry of the same key on lookup. -/
def mergeHeaders (headers : JsRecord) (contentType : String) : JsRecord :=
  let contentTypeHeader :=
    if contentType == "json" then "application/json"
    else if contentType == "multipart" then "multipart/form-data"
    else if contentType == "urlencoded" then "application/x-www-urlencoded"
    else "plain/text"
  headers ++ [("Content-Type", .str contentTypeHeader)]

/-- A settled transport response: the metadata fields `send` captures,
plus the outcome of each body-consumption method (`json()`, `text()`,
`blob()`), which the transport resolves or rejects on its own. -/
structure JsResponse where
  headers : JsRecord
  ok : Bool
  redirected : Bool
  status : Int
  type : String
  url : String
  jsonResult : Except JsValue JsValue
  textResult : Except JsValue JsValue
  blobResult : Except JsValue JsValue
  deriving DecidableEq, Repr

/-- The `baseResponse` literal built in the first `then` of `send`,
captured before the body is consumed. -/
def baseResponse (r : JsResponse) : BaseResponse :=
  { headers := r.headers
    ok := r.ok
    redirected := r.redirected
    status := r.status
    type := r.type
    url := r.url }

/-- A rejection coming from a transport-owned operation becomes a
foreign error value inside the chain. -/
def liftNet : Except JsValue JsValue → Except JsErr JsValue
  | .error v => .error (.external v)
  | .ok v => .ok v

/-- Response-body parser `parseResponseBody` from the source: dispatch
on the declared response type, synchronously throwing on an unknown
one.  The first three branches return the transport's own promise,
whose rejection (a JSON decode failure, say) is a foreign value. -/
def parseResponseBody (responseType : String) (r : JsResponse) :
    Except JsErr JsValue :=
  if responseType == "json" then liftNet r.jsonResult
  else if responseType == "text" then liftNet r.textResult
  else if responseType == "blob" then liftNet r.blobResult
  else .error (.plainError ("unknown responseType: " ++ responseType))

/-- JavaScript strict equality between a string and an arbitrary value:
true exactly when the value is the same string. -/
def strictEqStr (s : String) (v : JsValue) : Bool :=
  match v with
  | .str t => s == t
  | _ => false

/-- The truthiness-guarded tag test of the final `catch`:
`err && err.name === 'httpErrorResponse'`. -/
def isHttpErrorTagged : JsErr → Bool
  | .httpErrorEnvelope _ _ => true
  | .external v => jsTruthy v && jsNameOf v == some "httpErrorResponse"
  | _ => false

/-- The final `catch` of the chain: a recognized HTTP error envelope is
rethrown unchanged, everything else is wrapped as a network error. -/
def catchHandler (err : JsErr) : JsErr :=
  if isHttpErrorTagged err then err else .networkEnvelope err

/-- How the fetch promise settles: with a response, or with a rejection
value (a transport-level failure). -/
inductive TransportResult where
  | success (r : JsResponse)
  | failure (v : JsValue)
  deriving DecidableEq, Repr

/-- The per-call behaviour of the environment: when the fetch chain
settles (network latency plus body materialization, in milliseconds)
and how. -/
structure NetworkBehavior where
  settleTime : Nat
  result : TransportResult
  deriving DecidableEq, Repr

/-- The argument object handed to `fetch`: built URL, uppercased
method, encoded body (`none` is a `null` body), composed headers. -/
structure FetchRequest where
  url : String
  method : String
  body : Option JsValue
  headers : JsRecord
  deriving DecidableEq, Repr

/-- `String.prototype.toUpperCase` on the ASCII method names. -/
def jsToUpperCase (s : String) : String :=
  String.mk (s.data.map Char.toUpper)

/-- The value a successful call resolves with: the bare parsed body, or
the metadata object with the body attached. -/
inductive SendSuccess where
  | bareBody (data : JsValue)
  | fullResponse (base : BaseResponse) (body : JsValue)
  deriving DecidableEq, Repr

/-- Outcome of one call: a synchronous throw raised while the `fetch`
arguments were being evaluated (no network call was issued), or the
settlement of the race, together with the request that was issued. -/
inductive SendResult where
  | syncThrow (e : JsErr)
  | raced (request : FetchRequest) (outcome : Except JsErr SendSuccess)
  deriving DecidableEq, Repr

/-- Whether a call resolved (rather than rejected or threw). -/
def SendResult.isSuccess : SendResult → Bool
  | .raced _ (.ok _) => true
  | _ => false

/-- The two `then` steps of the fetch chain (the metadata capture is
sequenced before the body parse completes, as in the `Promise.all`
pair).  A rejected fetch skips both `then`s; a non-200 status throws
the HTTP error envelope; a 200 status resolves bare or full depending
on `options.observe === body` — the strict comparison against the
request body value, exactly as written in the source. -/
def thenSteps (options : MergedOptions) (body : JsValue)
    (tres : TransportResult) : Except JsErr SendSuccess :=
  match tres with
  | .failure v => .error (.external v)
  | .success response =>
    match parseResponseBody options.responseType response with
    | .error e => .error e
    | .ok data =>
      let base := baseResponse response
      if base.status ≠ 200 then .error (.httpErrorEnvelope base data)
      else if strictEqStr options.observe body then .ok (.bareBody data)
      else .ok (.fullResponse base data)

/-- The fetch chain after the transport settles: the two `then` steps
followed by the final `catch`. -/
def processChain (options : MergedOptions) (body : JsValue)
    (tres : TransportResult) : Except JsErr SendSuccess :=
  match thenSteps options body tres with
  | .ok v => .ok v
  | .error e => .error (catchHandler e)

/-- The request object `send` passes to `fetch`, given the encoded
request body. -/
def builtRequest (method url : String) (options : MergedOptions)
    (reqBody : Option JsValue) : FetchRequest :=
  { url := combineQueryStrings url options.params
    method := jsToUpperCase method
    body := reqBody
    headers := mergeHeaders options.headers options.contentType }

/-- `Promise.race` between the fetch chain and the `timeout` helper's
rejecting timer: the timer wins exactly when it fires strictly before
the chain settles. -/
def race (timeoutMs settleTime : Nat) (chain : Except JsErr SendSuccess) :
    Except JsErr SendSuccess :=
  if timeoutMs < settleTime then .error .timeoutEnvelope else chain

/-- The `send` function: evaluating the `fetch` arguments first runs
`parseRequestBody`, whose throw escapes synchronously before any
network call; otherwise the request is issued and its chain is raced
against the timeout timer. -/
def send (method url : String) (options : MergedOptions) (body : JsValue)
    (net : NetworkBehavior) : SendResult :=
  match parseRequestBody options.contentType body with
  | .error e => .syncThrow e
  | .ok reqBody =>
    .raced (builtRequest method url options reqBody)
      (race options.timeout net.settleTime (processChain options body net.result))

/-- Client method `get`: merges options and sends with a `null` body. -/
def DummyHttpClient.get (url : String) (options : RequestOptions)
    (net : NetworkBehavior) : SendResult :=
  send "get" url (mergeOptions options) .nullV net

/-- Client method `delete`: merges options and sends with a `null` body. -/
def DummyHttpClient.delete (url : String) (options : RequestOptions)
    (net : NetworkBehavior) : SendResult :=
  send "delete" url (mergeOptions options) .nullV net

/-- Client method `post`. -/
def DummyHttpClient.post (url : String) (body : JsValue)
    (options : RequestOptions) (net : NetworkBehavior) : SendResult :=
  send "post" url (mergeOptions options) body net

/-- Client method `put`. -/
def DummyHttpClient.put (url : String) (body : JsValue)
    (options : RequestOptions) (net : NetworkBehavior) : SendResult :=
  send "put" url (mergeOptions options) body net

/-- Client method `patch`: as written in the source it dispatches with
the method string `put`, not `patch`. -/
def DummyHttpClient.patch (url : String) (body : JsValue)
    (options : RequestOptions) (net : NetworkBehavior) : SendResult :=
  send "put" url (mergeOptions options) body net

/-- A simulated 200 response whose JSON body decodes to the number 7. -/
def okResp : JsResponse :=
  { headers := []
    ok := true
    redirected := false
    status := 200
    type := "basic"
    url := "u"
    jsonResult := .ok (.num 7)
    textResult := .ok (.str "t")
    blobResult := .ok .nullV }

/-- A simulated 404 response whose JSON body decodes to the number 9. -/
def errResp : JsResponse :=
  { okResp with status := 404, jsonResult := .ok (.num 9) }

/-- Associativity of string concatenation, needed to normalize built
URLs. -/
theorem string_append_assoc (a b c : String) : a ++ b ++ c = a ++ (b ++ c) := by
  cases a with | mk la => cases b with | mk lb => cases c with | mk lc =>
    show String.mk (la ++ lb ++ lc) = String.mk (la ++ (lb ++ lc))
    rw [List.append_assoc]

/-- Unfolding of `send` when the request body encodes without a
synchronous throw. -/
theorem send_eq_raced (method url : String) (options : MergedOptions) (body : JsValue)
    (net : NetworkBehavior) (rb : Option JsValue)
    (hreq : parseRequestBody options.contentType body = .ok rb) :
    send method url options body net =
      .raced (builtRequest method url options rb)
        (race options.timeout net.settleTime (processChain options body net.result)) := by
  simp [send, hreq]

/-- The timer branch of the race: a timer that fires strictly before
the chain settles rejects with the timeout envelope. -/
theorem race_timer_first (timeoutMs settleTime : Nat) (chain : Except JsErr SendSuccess)
    (h : timeoutMs < settleTime) :
    race timeoutMs settleTime chain = .error .timeoutEnvelope := by
  simp [race, h]

/-- The chain branch of the race: when the chain settles no later than
the timer fires, the race outcome is the chain outcome. -/
theorem race_chain_first (timeoutMs settleTime : Nat) (chain : Except JsErr SendSuccess)
    (h : settleTime ≤ timeoutMs) :
    race timeoutMs settleTime chain = chain := by
  simp [race, Nat.not_lt.mpr h]

/-- A null request body always encodes to a null wire body, whatever
the content type: the falsy guard returns before the type is read. -/
theorem parseRequestBody_null (contentType : String) :
    parseRequestBody contentType .nullV = .ok none := by
  simp [parseRequestBody, jsTruthy]

/-- Every synchronous throw of the body encoder is a plain `Error`. -/
theorem parseRequestBody_error_plain (contentType : String) (b : JsValue) (e : JsErr)
    (h : parseRequestBody contentType b = .error e) : errName e = "Error" := by
  unfold parseRequestBody at h
  repeat' split at h
  all_goals first
    | (cases h; rfl)
    | simp_all [errName]

/-- On a 200 response with a parsed body, when the strict comparison of
observe against the request body fails, the chain resolves with the
full metadata-plus-body object. -/
theorem processChain_ok_200 (options : MergedOptions) (body : JsValue)
    (resp : JsResponse) (data : JsValue)
    (hparse : parseResponseBody options.responseType resp = .ok data)
    (hstatus : resp.status = 200)
    (hob : strictEqStr options.observe body = false) :
    processChain options body (.success resp) =
      .ok (.fullResponse (baseResponse resp) data) := by
  simp [processChain, thenSteps, hparse, baseResponse, hstatus, hob]

/-- On a 200 response with a parsed body, when the strict comparison of
observe against the request body succeeds, the chain resolves with the
bare body. -/
theorem processChain_ok_200_bare (options : MergedOptions) (body : JsValue)
    (resp : JsResponse) (data : JsValue)
    (hparse : parseResponseBody options.responseType resp = .ok data)
    (hstatus : resp.status = 200)
    (hob : strictEqStr options.observe body = true) :
    processChain options body (.success resp) = .ok (.bareBody data) := by
  simp [processChain, thenSteps, hparse, baseResponse, hstatus, hob]

/-- On a non-200 response with a parsed body, the chain rejects with
the HTTP error envelope, which the catch rethrows unchanged. -/
theorem processChain_http_error (options : MergedOptions) (body : JsValue)
    (resp : JsResponse) (data : JsValue)
    (hparse : parseResponseBody options.responseType resp = .ok data)
    (hstatus : resp.status ≠ 200) :
    processChain options body (.success resp) =
      .error (.httpErrorEnvelope (baseResponse resp) data) := by
  simp [processChain, thenSteps, hparse, baseResponse, hstatus, catchHandler,
    isHttpErrorTagged]

/-- Every rejection of the chain has passed through the catch. -/
theorem processChain_error_shape (options : MergedOptions) (body : JsValue)
    (tres : TransportResult) (err : JsErr)
    (h : processChain options body tres = .error err) :
    ∃ e, err = catchHandler e := by
  unfold processChain at h
  cases hc : thenSteps options body tres with
  | ok v => rw [hc] at h; exact absurd h (by simp)
  | error e =>
    rw [hc] at h
    exact ⟨e, by injection h with h1; exact h1.symm⟩

/-- The catch only lets through errors named httpErrorResponse and tags
everything else as networkError. -/
theorem catchHandler_tag (e : JsErr) :
    errName (catchHandler e) = "httpErrorResponse" ∨
    errName (catchHandler e) = "networkError" := by
  unfold catchHandler
  split
  · rename_i htag
    left
    cases e with
    | httpErrorEnvelope base v => rfl
    | external v =>
      cases v <;> simp_all [isHttpErrorTagged, errName, jsNameOf, jsTruthy]
    | plainError m => simp [isHttpErrorTagged] at htag
    | timeoutEnvelope => simp [isHttpErrorTagged] at htag
    | networkEnvelope inner => simp [isHttpErrorTagged] at htag
  · right; rfl

/-- Claim C1 (code bug), evaluated at the failing input: a post of the
numeric payload 5 with observe set to the string body, receiving a 200
response whose JSON body decodes to 7, resolves with the full
metadata-plus-body object — never the bare parsed body the claim (and
the spec's documented intent) requires — because the source compares
`options.observe` against the request body value instead of the string
literal. -/
theorem observe_body_resolves_full_object :
    DummyHttpClient.post "u" (.num 5) { observe := some "body" } ⟨0, .success okResp⟩ =
      .raced
        { url := "u"
          method := "POST"
          body := some (.str "5")
          headers := [("Content-Type", .str "application/json")] }
        (.ok (.fullResponse (baseResponse okResp) (.num 7))) ∧
    (∀ v : JsValue,
      SendSuccess.fullResponse (baseResponse okResp) (.num 7) ≠ .bareBody v) :=
  ⟨rfl, fun _ h => SendSuccess.noConfusion h⟩

/-- Claim C2: when the transport settles strictly before the timer and
both the request encoding and the response body parse succeed, the call
is a success exactly when the status is 200, and any other status
rejects with the httpErrorResponse envelope carrying the captured
metadata and the parsed body as its error detail. -/
theorem status_exactly_200_classifies (method url : String) (options : MergedOptions)
    (body : JsValue) (rb : Option JsValue) (t : Nat) (resp : JsResponse) (data : JsValue)
    (hreq : parseRequestBody options.contentType body = .ok rb)
    (ht : t < options.timeout)
    (hparse : parseResponseBody options.responseType resp = .ok data) :
    ((send method url options body ⟨t, .success resp⟩).isSuccess = true ↔
      resp.status = 200) ∧
    (resp.status ≠ 200 →
      send method url options body ⟨t, .success resp⟩ =
        .raced (builtRequest method url options rb)
          (.error (.httpErrorEnvelope (baseResponse resp) data))) := by
  have houtcome : send method url options body ⟨t, .success resp⟩ =
      .raced (builtRequest method url options rb)
        (processChain options body (.success resp)) := by
    rw [send_eq_raced method url options body ⟨t, .success resp⟩ rb hreq]
    congr 1
    exact race_chain_first _ _ _ (le_of_lt ht)
  refine ⟨?_, ?_⟩
  · rw [houtcome]
    by_cases hst : resp.status = 200
    · simp only [hst]
      by_cases hob : strictEqStr options.observe body = true
      · rw [processChain_ok_200_bare options body resp data hparse hst hob]
        simp [SendResult.isSuccess]
      · rw [processChain_ok_200 options body resp data hparse hst
          ((Bool.not_eq_true _).mp hob)]
        simp [SendResult.isSuccess]
    · rw [processChain_http_error options body resp data hparse hst]
      simp [SendResult.isSuccess, hst]
  · intro hst
    rw [houtcome, processChain_http_error options body resp data hparse hst]

/-- Claim C2 witness: a 404 response settling before the timer rejects
with the HTTP error envelope carrying the metadata and the decoded
body. -/
theorem status_exactly_200_classifies_witness :
    ((send "get" "u" defaultOptions .nullV ⟨0, .success errResp⟩).isSuccess = true ↔
      errResp.status = 200) ∧
    (errResp.status ≠ 200 →
      send "get" "u" defaultOptions .nullV ⟨0, .success errResp⟩ =
        .raced (builtRequest "get" "u" defaultOptions none)
          (.error (.httpErrorEnvelope (baseResponse errResp) (.num 9)))) :=
  status_exactly_200_classifies "get" "u" defaultOptions .nullV none 0 errResp (.num 9)
    rfl (by decide) rfl

/-- Claim C3: once the request body encodes, a timer that fires
strictly before the chain settles rejects the call with the timeout
envelope whatever the transport produced, and a chain that settles
strictly before the timer determines the outcome with the timer having
no observable effect. -/
theorem timeout_race_discards_loser (method url : String) (options : MergedOptions)
    (body : JsValue) (rb : Option JsValue)
    (hreq : parseRequestBody options.contentType body = .ok rb) :
    (∀ (t : Nat) (tres : TransportResult), options.timeout < t →
      send method url options body ⟨t, tres⟩ =
        .raced (builtRequest method url options rb) (.error .timeoutEnvelope)) ∧
    (∀ (t : Nat) (tres : TransportResult), t < options.timeout →
      send method url options body ⟨t, tres⟩ =
        .raced (builtRequest method url options rb) (processChain options body tres)) := by
  constructor
  · intro t tres h
    rw [send_eq_raced method url options body ⟨t, tres⟩ rb hreq]
    congr 1
    exact race_timer_first _ _ _ h
  · intro t tres h
    rw [send_eq_raced method url options body ⟨t, tres⟩ rb hreq]
    congr 1
    exact race_chain_first _ _ _ (le_of_lt h)

/-- Claim C3 witness: a network delay of 40000 ms against the default
30000 ms timer rejects with the timeout envelope even though the
transport delivered a clean 200 response. -/
theorem timeout_race_discards_loser_witness :
    send "get" "u" defaultOptions .nullV ⟨40000, .success okResp⟩ =
      .raced (builtRequest "get" "u" defaultOptions none) (.error .timeoutEnvelope) :=
  (timeout_race_discards_loser "get" "u" defaultOptions .nullV none rfl).1 40000
    (.success okResp) (by decide)

/-- Claim C4 counterexample: a get with response type bogus does not
fail synchronously before a network call — the network call is issued
(the outcome is a raced settlement, not a synchronous throw) and the
failure surfaces afterwards as an asynchronous networkError
rejection. -/
theorem unknown_responseType_reaches_network :
    DummyHttpClient.get "u" { responseType := some "bogus" } ⟨1, .success okResp⟩ =
      .raced
        { url := "u"
          method := "GET"
          body := none
          headers := [("Content-Type", .str "application/json")] }
        (.error (.networkEnvelope (.plainError "unknown responseType: bogus"))) ∧
    (∀ e : JsErr,
      SendResult.raced
        { url := "u"
          method := "GET"
          body := none
          headers := [("Content-Type", .str "application/json")] }
        (.error (.networkEnvelope (.plainError "unknown responseType: bogus"))) ≠
        .syncThrow e) :=
  ⟨rfl, fun _ h => SendResult.noConfusion h⟩

/-- Claim C4 amended: a truthy payload with an unrecognized content
type makes the call throw synchronously with the descriptive error
before any network call, whatever the network behaviour would be; an
unrecognized response type does not stop the network call — when the
transport settles first, the call rejects asynchronously with a
networkError envelope wrapping the descriptive error. -/
theorem type_validation_boundaries (method url : String) (options : MergedOptions) :
    (∀ (body : JsValue) (net : NetworkBehavior), jsTruthy body = true →
      options.contentType ∉ (["text", "json", "multipart", "urlencoded"] : List String) →
      send method url options body net =
        .syncThrow (.plainError ("unknown contentType: " ++ options.contentType))) ∧
    (∀ (body : JsValue) (rb : Option JsValue) (t : Nat) (resp : JsResponse),
      parseRequestBody options.contentType body = .ok rb →
      t < options.timeout →
      options.responseType ∉ (["json", "text", "blob"] : List String) →
      send method url options body ⟨t, .success resp⟩ =
        .raced (builtRequest method url options rb)
          (.error (.networkEnvelope
            (.plainError ("unknown responseType: " ++ options.responseType))))) := by
  constructor
  · intro body net htrue hmem
    simp only [List.mem_cons, List.not_mem_nil, or_false, not_or] at hmem
    obtain ⟨h1, h2, h3, h4⟩ := hmem
    simp [send, parseRequestBody, htrue, h1, h2, h3, h4]
  · intro body rb t resp hreq ht hmem
    simp only [List.mem_cons, List.not_mem_nil, or_false, not_or] at hmem
    obtain ⟨h1, h2, h3⟩ := hmem
    rw [send_eq_raced method url options body ⟨t, .success resp⟩ rb hreq]
    congr 1
    rw [race_chain_first _ _ _ (le_of_lt ht)]
    simp [processChain, thenSteps, parseResponseBody, h1, h2, h3, catchHandler,
      isHttpErrorTagged]

/-- Claim C4 amended witness: content type bogus with a truthy payload
throws synchronously; response type bogus with the transport settling
first rejects with the wrapped descriptive error. -/
theorem type_validation_boundaries_witness :
    send "get" "u" { defaultOptions with contentType := "bogus" } (.num 5)
        ⟨0, .success okResp⟩ =
      .syncThrow (.plainError ("unknown contentType: " ++ "bogus")) ∧
    send "get" "u" { defaultOptions with responseType := "bogus" } .nullV
        ⟨0, .success okResp⟩ =
      .raced (builtRequest "get" "u" { defaultOptions with responseType := "bogus" } none)
        (.error (.networkEnvelope (.plainError ("unknown responseType: " ++ "bogus")))) :=
  ⟨(type_validation_boundaries "get" "u" { defaultOptions with contentType := "bogus" }).1
      (.num 5) ⟨0, .success okResp⟩ (by decide) (by decide),
    (type_validation_boundaries "get" "u" { defaultOptions with responseType := "bogus" }).2
      .nullV none 0 okResp rfl (by decide) (by decide)⟩

/-- Claim C5 counterexample: a post of a non-FormData payload under the
multipart content type fails, but as a synchronous plain Error throw,
not as a promise rejection carrying one of the three envelope tags. -/
theorem multipart_failure_escapes_envelopes :
    DummyHttpClient.post "u" (.num 5) { contentType := some "multipart" }
        ⟨0, .success okResp⟩ =
      .syncThrow (.plainError "require a FormData instance when content type is multipart") ∧
    errName (.plainError "require a FormData instance when content type is multipart") ∉
      (["timeout", "httpErrorResponse", "networkError"] : List String) :=
  ⟨rfl, by decide⟩

/-- Claim C5 amended: every failure that rejects the call's promise
carries one of the three envelope tags, while the encoding-time
validation failures escape as synchronous throws of plain Errors before
the promise exists. -/
theorem failure_shape_discipline (method url : String) (options : MergedOptions)
    (body : JsValue) (net : NetworkBehavior) :
    (∀ (req : FetchRequest) (err : JsErr),
      send method url options body net = .raced req (.error err) →
      errName err = "timeout" ∨ errName err = "httpErrorResponse" ∨
        errName err = "networkError") ∧
    (∀ e : JsErr, send method url options body net = .syncThrow e →
      errName e = "Error") := by
  constructor
  · intro req err h
    unfold send at h
    cases hb : parseRequestBody options.contentType body with
    | error e => rw [hb] at h; exact absurd h (by simp)
    | ok rb =>
      rw [hb] at h
      injection h with hreq hout
      unfold race at hout
      split at hout
      · left
        injection hout with he
        rw [← he]
        rfl
      · obtain ⟨e, he⟩ := processChain_error_shape options body net.result err hout
        rcases catchHandler_tag e with htag | htag
        · right; left; rw [he]; exact htag
        · right; right; rw [he]; exact htag
  · intro e h
    unfold send at h
    cases hb : parseRequestBody options.contentType body with
    | error e2 =>
      rw [hb] at h
      injection h with he
      rw [← he]
      exact parseRequestBody_error_plain options.contentType body e2 hb
    | ok rb => rw [hb] at h; exact absurd h (by simp)

/-- Claim C5 amended witness: the 404 rejection carries one of the
three tags. -/
theorem failure_shape_discipline_witness :
    errName (.httpErrorEnvelope (baseResponse errResp) (.num 9)) = "timeout" ∨
    errName (.httpErrorEnvelope (baseResponse errResp) (.num 9)) = "httpErrorResponse" ∨
    errName (.httpErrorEnvelope (baseResponse errResp) (.num 9)) = "networkError" :=
  (failure_shape_discipline "get" "u" defaultOptions .nullV ⟨0, .success errResp⟩).1
    (builtRequest "get" "u" defaultOptions none)
    (.httpErrorEnvelope (baseResponse errResp) (.num 9)) rfl

/-- Claim C6: every network call patch issues carries the uppercased
method PUT, never PATCH. -/
theorem patch_dispatches_put (url : String) (body : JsValue) (options : RequestOptions)
    (net : NetworkBehavior) (req : FetchRequest) (out : Except JsErr SendSuccess)
    (h : DummyHttpClient.patch url body options net = .raced req out) :
    req.method = "PUT" ∧ req.method ≠ "PATCH" := by
  unfold DummyHttpClient.patch send at h
  cases hb : parseRequestBody (mergeOptions options).contentType body with
  | error e => rw [hb] at h; exact absurd h (by simp)
  | ok rb =>
    rw [hb] at h
    injection h with hreq hout
    constructor
    · rw [← hreq]; rfl
    · rw [← hreq]
      show ("PUT" : String) ≠ "PATCH"
      decide

/-- Claim C6 witness: the request issued by a concrete patch call has
method PUT. -/
theorem patch_dispatches_put_witness :
    ({ url := "u"
       method := "PUT"
       body := some (.str "5")
       headers := [("Content-Type", .str "application/json")] } : FetchRequest).method =
      "PUT" ∧
    ({ url := "u"
       method := "PUT"
       body := some (.str "5")
       headers := [("Content-Type", .str "application/json")] } : FetchRequest).method ≠
      "PATCH" :=
  patch_dispatches_put "u" (.num 5) {} ⟨0, .success okResp⟩ _ _ rfl

/-- Claim C7: the shallow spread merge gives each omitted field its
documented default and each supplied field the caller's value — in
particular a supplied headers record replaces the default record
entirely. -/
theorem merge_shallow_defaults (o : RequestOptions) :
    ((o.headers = none → (mergeOptions o).headers = []) ∧
      ∀ v, o.headers = some v → (mergeOptions o).headers = v) ∧
    ((o.params = none → (mergeOptions o).params = []) ∧
      ∀ v, o.params = some v → (mergeOptions o).params = v) ∧
    ((o.observe = none → (mergeOptions o).observe = "body") ∧
      ∀ v, o.observe = some v → (mergeOptions o).observe = v) ∧
    ((o.contentType = none → (mergeOptions o).contentType = "json") ∧
      ∀ v, o.contentType = some v → (mergeOptions o).contentType = v) ∧
    ((o.responseType = none → (mergeOptions o).responseType = "json") ∧
      ∀ v, o.responseType = some v → (mergeOptions o).responseType = v) ∧
    ((o.timeout = none → (mergeOptions o).timeout = 30000) ∧
      ∀ v, o.timeout = some v → (mergeOptions o).timeout = v) := by
  refine ⟨⟨?_, ?_⟩, ⟨?_, ?_⟩, ⟨?_, ?_⟩, ⟨?_, ?_⟩, ⟨?_, ?_⟩, ⟨?_, ?_⟩⟩
  all_goals first
    | (intro h; simp [mergeOptions, defaultOptions, h])
    | (intro v h; simp [mergeOptions, defaultOptions, h])

/-- Claim C7 witness: supplying only headers keeps every other default
and installs exactly the supplied record. -/
theorem merge_shallow_defaults_witness :
    (mergeOptions { headers := some [("X", .str "1")] }).headers = [("X", .str "1")] ∧
    (mergeOptions { headers := some [("X", .str "1")] }).observe = "body" ∧
    (mergeOptions { headers := some [("X", .str "1")] }).timeout = 30000 :=
  ⟨(merge_shallow_defaults { headers := some [("X", .str "1")] }).1.2 _ rfl,
    (merge_shallow_defaults { headers := some [("X", .str "1")] }).2.2.1.1 rfl,
    (merge_shallow_defaults { headers := some [("X", .str "1")] }).2.2.2.2.2.1 rfl⟩

/-- Claim C8 counterexample: the empty string is a present but falsy
payload, and under the text content type the encoder yields no body at
all, not the empty string the claim asserts. -/
theorem text_present_falsy_yields_null :
    parseRequestBody "text" (.str "") = .ok none ∧
    (Except.ok none : Except JsErr (Option JsValue)) ≠ .ok (some (.str "")) :=
  ⟨rfl, by decide⟩

/-- Claim C8 amended: under the text content type every falsy payload,
absent or present, yields no body (null); the empty-string fallback in
the text branch is unreachable because the falsy guard returns
first. -/
theorem text_falsy_payload_yields_null (v : JsValue) (h : jsTruthy v = false) :
    parseRequestBody "text" v = .ok none := by
  simp [parseRequestBody, h]

/-- Claim C8 amended witness: the present-but-falsy empty string yields
no body. -/
theorem text_falsy_payload_yields_null_witness :
    parseRequestBody "text" (.str "") = .ok none :=
  text_falsy_payload_yields_null (.str "") rfl

/-- Claim C9: combining any base URL with the empty params record
returns the URL unchanged, and combining it with the single-entry
record mapping a to 1 appends the serialized query string. -/
theorem combineQueryStrings_identity_and_append (url : String) :
    combineQueryStrings url [] = url ∧
    combineQueryStrings url [("a", .num 1)] = url ++ "?a=1" := by
  constructor
  · rfl
  · show url ++ "?" ++ qsStringifyRecord [("a", .num 1)] = url ++ "?a=1"
    rw [show qsStringifyRecord [("a", JsValue.num 1)] = "a=1" from rfl,
      string_append_assoc]
    rfl

/-- Claim C9 witness at a concrete URL. -/
theorem combineQueryStrings_identity_and_append_witness :
    combineQueryStrings "u" [] = "u" ∧
    combineQueryStrings "u" [("a", .num 1)] = "u" ++ "?a=1" :=
  combineQueryStrings_identity_and_append "u"

/-- Claim C10: get and delete pass a null request body, the strict
comparison of observe against null fails for every observe string, so
every 200 response whose body parses resolves to the full
metadata-plus-body object — the bare parsed body is never returned,
whatever the observe option, including the default. -/
theorem get_delete_resolve_full (url : String) (o : RequestOptions) (t : Nat)
    (resp : JsResponse) (data : JsValue)
    (ht : t < (mergeOptions o).timeout)
    (hparse : parseResponseBody (mergeOptions o).responseType resp = .ok data)
    (hstatus : resp.status = 200) :
    DummyHttpClient.get url o ⟨t, .success resp⟩ =
      .raced (builtRequest "get" url (mergeOptions o) none)
        (.ok (.fullResponse (baseResponse resp) data)) ∧
    DummyHttpClient.delete url o ⟨t, .success resp⟩ =
      .raced (builtRequest "delete" url (mergeOptions o) none)
        (.ok (.fullResponse (baseResponse resp) data)) ∧
    (∀ v : JsValue, SendSuccess.fullResponse (baseResponse resp) data ≠ .bareBody v) := by
  have hob : strictEqStr (mergeOptions o).observe .nullV = false := rfl
  have hchain := processChain_ok_200 (mergeOptions o) .nullV resp data hparse hstatus hob
  refine ⟨?_, ?_, fun _ h => SendSuccess.noConfusion h⟩
  · unfold DummyHttpClient.get
    rw [send_eq_raced "get" url (mergeOptions o) .nullV ⟨t, .success resp⟩ none
      (parseRequestBody_null _)]
    congr 1
    rw [race_chain_first _ _ _ (le_of_lt ht), hchain]
  · unfold DummyHttpClient.delete
    rw [send_eq_raced "delete" url (mergeOptions o) .nullV ⟨t, .success resp⟩ none
      (parseRequestBody_null _)]
    congr 1
    rw [race_chain_first _ _ _ (le_of_lt ht), hchain]

/-- Claim C10 witness: a get with observe explicitly set to body still
resolves the full object on a 200 response. -/
theorem get_delete_resolve_full_witness :
    DummyHttpClient.get "u" { observe := some "body" } ⟨0, .success okResp⟩ =
      .raced (builtRequest "get" "u" (mergeOptions { observe := some "body" }) none)
        (.ok (.fullResponse (baseResponse okResp) (.num 7))) ∧
    DummyHttpClient.delete "u" { observe := some "body" } ⟨0, .success okResp⟩ =
      .raced (builtRequest "delete" "u" (mergeOptions { observe := some "body" }) none)
        (.ok (.fullResponse (baseResponse okResp) (.num 7))) ∧
    (∀ v : JsValue, SendSuccess.fullResponse (baseResponse okResp) (.num 7) ≠ .bareBody v) :=
  get_delete_resolve_full "u" { observe := some "body" } 0 okResp (.num 7)
    (by decide) rfl rfl

end DummyHttp
